import Mathlib

/-!
Shallow embedding of the LLM-orchestration core of the `chat_bot` service
(provider factory, provider adapters, MCP tool-server registry, and the
`stream_chat` agentic loop), together with proofs checking the
natural-language specification against it.

Each definition is translated from the Python source named in its doc
comment; file- and network-I/O side effects (writing the JSON config file,
vendor HTTP calls, subprocesses) are modelled by explicit state passing
and by treating the external reply as an input.
-/

set_option autoImplicit false

namespace ChatBot

/-! ### Provider registry (`app/services/llm_factory.py`) -/

/-- Static provider metadata, mirroring `app.schemas.llm_config.LLMProviderInfo`
(the pydantic model with fields `provider`, `name`, `description`, `models`,
`default_model`, `requires_api_key`). -/
structure LLMProviderInfo where
  provider : String
  name : String
  description : String
  models : List String
  default_model : String
  requires_api_key : Bool
deriving Repr, DecidableEq

/-- Keys of `LLMFactory._providers` (llm_factory.py lines 11-16): the map from
provider identifier to adapter class.  The `LLMProvider` enum values are the
strings "openai", "anthropic", "google", "groq" (schemas/chat.py lines 7-11). -/
def providerClasses : List String :=
  ["openai", "anthropic", "google", "groq"]

/-- The `LLMFactory._provider_info` table (llm_factory.py lines 18-60),
as an association list in declaration order. -/
def provider_info : List (String × LLMProviderInfo) :=
  [ ("openai",
     { provider := "openai"
       name := "OpenAI"
       description := "GPT models from OpenAI including GPT-4 and GPT-3.5"
       models := ["gpt-4", "gpt-4-turbo", "gpt-3.5-turbo", "gpt-3.5-turbo-16k"]
       default_model := "gpt-3.5-turbo"
       requires_api_key := true }),
    ("anthropic",
     { provider := "anthropic"
       name := "Anthropic"
       description := "Claude models from Anthropic"
       models := ["claude-3-opus-20240229", "claude-3-sonnet-20240229",
                  "claude-3-haiku-20240307"]
       default_model := "claude-3-sonnet-20240229"
       requires_api_key := true }),
    ("google",
     { provider := "google"
       name := "Google"
       description := "Gemini models from Google"
       models := ["gemini-2.5-pro", "gemini-2.5-flash",
                  "gemini-2.5-flash-lite-preview-06-17", "gemini-2.0-flash",
                  "gemini-2.0-flash-lite", "gemini-1.5-pro",
                  "gemini-1.5-flash", "gemini-1.5-flash-8b"]
       default_model := "gemini-2.5-pro"
       requires_api_key := true }),
    ("groq",
     { provider := "groq"
       name := "Groq"
       description := "Fast inference models on Groq hardware"
       models := ["mixtral-8x7b-32768", "llama2-70b-4096", "gemma-7b-it"]
       default_model := "mixtral-8x7b-32768"
       requires_api_key := true }) ]

/-- Python dictionary lookup `LLMFactory._provider_info[provider_type]`
(as an `Option`; keys are unique in the table). -/
def lookupInfo (provider_type : String) : Option LLMProviderInfo :=
  (provider_info.find? (fun p => p.1 = provider_type)).map (fun p => p.2)

/-- The result of `LLMFactory.create_provider`: a constructed adapter bound to
a provider, credential and model.  Constructing an adapter performs no
network activity in the source (the vendor SDK clients are built lazily). -/
structure BoundAdapter where
  provider_type : String
  api_key : String
  model : String
deriving Repr, DecidableEq

/-- `LLMFactory.create_provider` (llm_factory.py lines 62-79).  Python's
`model: str = None` default together with the `if not model` test means both
`None` and `""` select the default model; both are modelled by `""`.
The `KeyError` branch is unreachable because `_providers` and
`_provider_info` are declared with the same four keys. -/
def create_provider (provider_type api_key model : String) :
    Except String BoundAdapter :=
  if providerClasses.contains provider_type then
    match lookupInfo provider_type with
    | some info =>
        .ok { provider_type := provider_type
              api_key := api_key
              model := if model = "" then info.default_model else model }
    | none => .error ("KeyError: " ++ provider_type)
  else
    .error ("Unsupported provider: " ++ provider_type)

/-- `LLMFactory.validate_provider_config` (llm_factory.py lines 96-103):
unknown provider gives `false`, otherwise membership in the declared model
list.  A total function: no I/O, no exceptions. -/
def validate_provider_config (provider_type model : String) : Bool :=
  match lookupInfo provider_type with
  | none => false
  | some info => info.models.contains model

/-- `GoogleProvider.default_models` (llm_providers.py line 179): the model
list the Google adapter itself advertises via `get_available_models`. -/
def googleAdapterModels : List String :=
  ["gemini-2.5-pro", "gemini-pro", "gemini-pro-vision"]

/-! ### MCP tool-server registry (`app/services/mcp_integration.py`)

The registry state is `MCPService.servers`, a Python dict from server name
to `MCPServer`; it is modelled as an association list in insertion order
(Python dicts preserve insertion order).  `save_config` / `load_config`
move between this state and the on-disk `mcpServers` document; the JSON
file itself is modelled structurally, as the spec's round-trip property is
stated structurally. -/

/-- One entry of a server's `tools` list.  In the source these are plain
dicts `{"name": .., "description": .., "disabled": ..}`; `description`
defaults to `""` and `disabled` to `False` where absent (`tool.get`). -/
structure MCPTool where
  name : String
  description : String
  disabled : Bool
deriving Repr, DecidableEq

/-- `MCPServer` (mcp_integration.py lines 17-46).  The constructor reads each
field from the config dict with a default (`[]`, `{}`, `False`, `""`), so a
config is modelled as the record of fields after defaults are applied. -/
structure MCPServer where
  name : String
  command : List String
  args : List String
  env : List (String × String)
  disabled : Bool
  description : String
  tools : List MCPTool
deriving Repr, DecidableEq

/-- A server's entry in the on-disk `mcpServers` document: the dict produced
by `MCPServer.to_dict` and consumed by `MCPServer.__init__` (defaults
already applied, see `MCPServer`). -/
structure ServerConfig where
  command : List String
  args : List String
  env : List (String × String)
  disabled : Bool
  description : String
  tools : List MCPTool
deriving Repr, DecidableEq

/-- `MCPServer.__init__` (mcp_integration.py lines 20-27): build a server
from its name and its config dict. -/
def MCPServer.ofConfig (name : String) (c : ServerConfig) : MCPServer :=
  { name := name
    command := c.command
    args := c.args
    env := c.env
    disabled := c.disabled
    description := c.description
    tools := c.tools }

/-- `MCPServer.to_dict` (mcp_integration.py lines 38-46). -/
def MCPServer.to_dict (s : MCPServer) : ServerConfig :=
  { command := s.command
    args := s.args
    env := s.env
    disabled := s.disabled
    description := s.description
    tools := s.tools }

/-- The `MCPService.servers` dict: name-keyed, insertion ordered. -/
abbrev Registry : Type := List (String × MCPServer)

/-- The `mcpServers` section of the config document. -/
abbrev ConfigDoc : Type := List (String × ServerConfig)

/-- `MCPService.save_config` (mcp_integration.py lines 77-95), restricted to
the data it writes: `{name: server.to_dict() for name, server in servers}`. -/
def save_config (r : Registry) : ConfigDoc :=
  r.map (fun p => (p.1, p.2.to_dict))

/-- `MCPService.load_config` (mcp_integration.py lines 57-75), restricted to
the data it reads: for each entry of `mcpServers`,
`servers[server_name] = MCPServer(server_name, server_config)`. -/
def load_config (d : ConfigDoc) : Registry :=
  d.map (fun p => (p.1, MCPServer.ofConfig p.1 p.2))

/-- Python's `name in self.servers` membership test. -/
def hasServer (r : Registry) (name : String) : Bool :=
  r.any (fun p => p.1 = name)

/-- The in-place mutation `self.servers[name].disabled = b` shared by
`enable_server` and `disable_server`. -/
def setServerDisabled (r : Registry) (name : String) (b : Bool) : Registry :=
  r.map (fun p => if p.1 = name then (p.1, { p.2 with disabled := b }) else p)

/-- `MCPService.enable_server` (mcp_integration.py lines 172-178), state part
(the `save_config()` file write is a side effect on disk, not on
`self.servers`). -/
def enable_server (r : Registry) (name : String) : Registry :=
  if hasServer r name then setServerDisabled r name false else r

/-- `MCPService.disable_server` (mcp_integration.py lines 180-186), state part. -/
def disable_server (r : Registry) (name : String) : Registry :=
  if hasServer r name then setServerDisabled r name true else r

/-- The tool loop of `enable_tool`/`disable_tool` (mcp_integration.py lines
234-238 and 245-249): walk `server.tools`, set `disabled` on the FIRST tool
whose name matches, then stop. -/
def setFirstTool (tools : List MCPTool) (tool_name : String) (b : Bool) :
    List MCPTool :=
  match tools with
  | [] => []
  | t :: ts =>
      if t.name = tool_name then { t with disabled := b } :: ts
      else t :: setFirstTool ts tool_name b

/-- `MCPService.enable_tool` (mcp_integration.py lines 230-239), state part:
`get_server` is the dict lookup, then the first matching tool is enabled. -/
def enable_tool (r : Registry) (server_name tool_name : String) : Registry :=
  r.map (fun p =>
    if p.1 = server_name then
      (p.1, { p.2 with tools := setFirstTool p.2.tools tool_name false })
    else p)

/-- `MCPService.disable_tool` (mcp_integration.py lines 241-250), state part. -/
def disable_tool (r : Registry) (server_name tool_name : String) : Registry :=
  r.map (fun p =>
    if p.1 = server_name then
      (p.1, { p.2 with tools := setFirstTool p.2.tools tool_name true })
    else p)

/-- `MCPService.get_enabled_servers` (mcp_integration.py lines 139-145),
as the list of its `.values()` in order. -/
def get_enabled_servers (r : Registry) : List MCPServer :=
  (r.filter (fun p => !p.2.disabled)).map (fun p => p.2)

/-- `MCPServer.refresh_tools` (mcp_integration.py lines 29-36).  The awaited
`fetch_tools_for_server` call (subprocess spawn + MCP handshake + listing,
lines 256-285) is modelled by its outcome: `.error` when it raises (process
fails to start, handshake fails, server unknown), `.ok ts` when it returns a
listing.  The source keeps the old list unless the fetched value is truthy
(`if tools:`), and the `except` clause keeps it on any exception. -/
def refresh_tools (fetched : Except String (List MCPTool)) (s : MCPServer) :
    MCPServer :=
  match fetched with
  | .error _ => s
  | .ok ts => if ts.isEmpty then s else { s with tools := ts }

/-! ### Anthropic adapter message flattening (`app/services/llm_providers.py`) -/

/-- One conversation message (`app.services.llm_interface.LLMMessage`). -/
structure LLMMessage where
  role : String
  content : String
deriving Repr, DecidableEq

/-- The message-splitting loop of `AnthropicProvider.generate_response`
(llm_providers.py lines 106-114): every `system`-role message overwrites
`system_message` (so the LAST one wins) and is dropped from
`formatted_messages`; all other messages are appended in order.  Returns
(`system_message`, `formatted_messages`). -/
def anthropic_prepare (messages : List LLMMessage) :
    Option String × List LLMMessage :=
  messages.foldl
    (fun acc msg =>
      if msg.role = "system" then (some msg.content, acc.2)
      else (acc.1, acc.2 ++ [msg]))
    (none, [])

/-! ### JSON values and `json.loads` (used by the adapters' tool-call
detection and by the `stream_chat` loop)

`Json` models the values produced by Python's `json.loads`: numbers keep
their raw lexeme (the adapters never do numeric arithmetic, only
truthiness tests), and objects keep their member list in parse order.
The parser below follows the strict-mode `json.loads` grammar, including
the `NaN`/`Infinity`/`-Infinity` extensions Python accepts by default;
fuel makes it total, with enough fuel supplied that it never runs out on
an input of the given length. -/

inductive Json where
  | null : Json
  | bool (b : Bool) : Json
  | num (lexeme : String) : Json
  | str (s : String) : Json
  | arr (elems : List Json) : Json
  | obj (members : List (String × Json)) : Json
deriving Repr

/-- JSON inter-token whitespace (space, tab, newline, carriage return). -/
def isJsonWs (c : Char) : Bool :=
  c = ' ' || c = '\t' || c = '\n' || c = '\r'

/-- Drop leading JSON whitespace. -/
def skipWs : List Char → List Char
  | [] => []
  | c :: cs => if isJsonWs c then skipWs cs else c :: cs

/-- Value of one hex digit. -/
def hexVal (c : Char) : Option Nat :=
  if '0' ≤ c ∧ c ≤ '9' then some (c.toNat - 48)
  else if 'a' ≤ c ∧ c ≤ 'f' then some (c.toNat - 87)
  else if 'A' ≤ c ∧ c ≤ 'F' then some (c.toNat - 55)
  else none

/-- Parse the body of a JSON string literal after the opening quote,
accumulating decoded characters in reverse.  Control characters are
rejected (strict mode); `\uXXXX` escapes decode to the scalar value
(surrogate pairs are not recombined, which does not affect parse
success/failure). -/
def parseStringBody : List Char → List Char → Option (String × List Char)
  | [], _ => none
  | '"' :: rest, acc => some (String.mk acc.reverse, rest)
  | '\\' :: e :: rest, acc =>
      if e = '"' then parseStringBody rest ('"' :: acc)
      else if e = '\\' then parseStringBody rest ('\\' :: acc)
      else if e = '/' then parseStringBody rest ('/' :: acc)
      else if e = 'n' then parseStringBody rest ('\n' :: acc)
      else if e = 't' then parseStringBody rest ('\t' :: acc)
      else if e = 'r' then parseStringBody rest ('\r' :: acc)
      else if e = 'b' then parseStringBody rest (Char.ofNat 8 :: acc)
      else if e = 'f' then parseStringBody rest (Char.ofNat 12 :: acc)
      else if e = 'u' then
        match rest with
        | h1 :: h2 :: h3 :: h4 :: rest2 =>
          match hexVal h1, hexVal h2, hexVal h3, hexVal h4 with
          | some a, some b, some c, some d =>
              parseStringBody rest2
                (Char.ofNat (4096 * a + 256 * b + 16 * c + d) :: acc)
          | _, _, _, _ => none
        | _ => none
      else none
  | ['\\'], _ => none
  | c :: rest, acc =>
      if c.toNat < 32 then none
      else parseStringBody rest (c :: acc)

/-- Characters a number lexeme may contain; a maximal run of these is taken
and then validated, which accepts and rejects the same documents as the
`json.loads` number regex (after a valid number the next token never starts
with one of these characters). -/
def isNumChar (c : Char) : Bool :=
  c.isDigit || c = '-' || c = '+' || c = '.' || c = 'e' || c = 'E'

/-- Consume the integer part (`0` or a nonzero digit followed by digits). -/
def chompIntPart : List Char → Option (List Char)
  | '0' :: cs => some cs
  | c :: cs => if c.isDigit then some (cs.dropWhile Char.isDigit) else none
  | [] => none

/-- Consume an optional fraction part (`.` followed by one or more digits). -/
def chompFrac : List Char → Option (List Char)
  | '.' :: ds =>
      match ds with
      | d :: rest =>
          if d.isDigit then some (rest.dropWhile Char.isDigit) else none
      | [] => none
  | cs => some cs

/-- Consume an optional exponent part (`e`/`E`, optional sign, digits). -/
def chompExp : List Char → Option (List Char)
  | e :: rest =>
      if e = 'e' ∨ e = 'E' then
        let rest' :=
          match rest with
          | s :: r => if s = '+' ∨ s = '-' then r else rest
          | [] => rest
        match rest' with
        | d :: r => if d.isDigit then some (r.dropWhile Char.isDigit) else none
        | [] => none
      else some (e :: rest)
  | [] => some []

/-- Does an entire character run form a valid JSON number lexeme? -/
def validNumLexeme (cs : List Char) : Bool :=
  let cs0 := match cs with
    | '-' :: r => r
    | _ => cs
  match chompIntPart cs0 with
  | none => false
  | some r1 =>
    match chompFrac r1 with
    | none => false
    | some r2 =>
      match chompExp r2 with
      | none => false
      | some r3 => r3.isEmpty

mutual

/-- Parse one JSON value (strict `json.loads` grammar plus the
`NaN`/`Infinity`/`-Infinity` defaults), returning it with the unconsumed
remainder. -/
def parseValue (fuel : Nat) (cs : List Char) : Option (Json × List Char) :=
  match fuel with
  | 0 => none
  | .succ f =>
    match skipWs cs with
    | [] => none
    | c :: rest =>
      if c = '{' then parseObjStart f rest
      else if c = '[' then parseArrStart f rest
      else if c = '"' then
        match parseStringBody rest [] with
        | some (s, rest') => some (.str s, rest')
        | none => none
      else if c = 't' then
        match rest with
        | 'r' :: 'u' :: 'e' :: rest' => some (.bool true, rest')
        | _ => none
      else if c = 'f' then
        match rest with
        | 'a' :: 'l' :: 's' :: 'e' :: rest' => some (.bool false, rest')
        | _ => none
      else if c = 'n' then
        match rest with
        | 'u' :: 'l' :: 'l' :: rest' => some (.null, rest')
        | _ => none
      else if c = 'N' then
        match rest with
        | 'a' :: 'N' :: rest' => some (.num "NaN", rest')
        | _ => none
      else if c = 'I' then
        match rest with
        | 'n' :: 'f' :: 'i' :: 'n' :: 'i' :: 't' :: 'y' :: rest' =>
            some (.num "Infinity", rest')
        | _ => none
      else if c = '-' ∧ rest.head? = some 'I' then
        match rest with
        | 'I' :: 'n' :: 'f' :: 'i' :: 'n' :: 'i' :: 't' :: 'y' :: rest' =>
            some (.num "-Infinity", rest')
        | _ => none
      else if c.isDigit ∨ c = '-' then
        match (c :: rest).span isNumChar with
        | (lex, rest') =>
          if validNumLexeme lex then some (.num (String.mk lex), rest')
          else none
      else none

/-- Parse an object body after the opening brace. -/
def parseObjStart (fuel : Nat) (cs : List Char) : Option (Json × List Char) :=
  match fuel with
  | 0 => none
  | .succ f =>
    match skipWs cs with
    | '}' :: rest => some (.obj [], rest)
    | cs' => parseMembers f cs' []

/-- Parse the members of a non-empty object body. -/
def parseMembers (fuel : Nat) (cs : List Char)
    (acc : List (String × Json)) : Option (Json × List Char) :=
  match fuel with
  | 0 => none
  | .succ f =>
    match skipWs cs with
    | '"' :: rest =>
      match parseStringBody rest [] with
      | some (k, rest1) =>
        match skipWs rest1 with
        | ':' :: rest2 =>
          match parseValue f rest2 with
          | some (v, rest3) =>
            match skipWs rest3 with
            | ',' :: rest4 => parseMembers f rest4 (acc ++ [(k, v)])
            | '}' :: rest4 => some (.obj (acc ++ [(k, v)]), rest4)
            | _ => none
          | none => none
        | _ => none
      | none => none
    | _ => none

/-- Parse an array body after the opening bracket. -/
def parseArrStart (fuel : Nat) (cs : List Char) : Option (Json × List Char) :=
  match fuel with
  | 0 => none
  | .succ f =>
    match skipWs cs with
    | ']' :: rest => some (.arr [], rest)
    | cs' => parseElems f cs' []

/-- Parse the elements of a non-empty array body. -/
def parseElems (fuel : Nat) (cs : List Char) (acc : List Json) :
    Option (Json × List Char) :=
  match fuel with
  | 0 => none
  | .succ f =>
    match parseValue f cs with
    | some (v, rest1) =>
      match skipWs rest1 with
      | ',' :: rest2 => parseElems f rest2 (acc ++ [v])
      | ']' :: rest2 => some (.arr (acc ++ [v]), rest2)
      | _ => none
    | none => none

end

/-- Python's `json.loads`: parse one value and require only whitespace to
follow.  Each recursive call in the parser consumes at least one character
per two fuel decrements, so the supplied fuel is never exhausted. -/
def parseJson (s : String) : Option Json :=
  match parseValue (2 * s.length + 2) s.data with
  | some (j, rest) => if (skipWs rest).isEmpty then some j else none
  | none => none

/-- Python dict `get`: look a key up in an object, `none` otherwise.  When
`json.loads` meets duplicate keys the later assignment wins, hence the
lookup from the end of the member list. -/
def objGet (j : Json) (k : String) : Option Json :=
  match j with
  | .obj kvs => (kvs.reverse.find? (fun p => p.1 = k)).map (fun p => p.2)
  | _ => none

/-- Is a number lexeme the number zero?  A JSON number is zero exactly when
its mantissa has no nonzero digit; `NaN` and the infinities are nonzero. -/
def numLexIsZero (lex : String) : Bool :=
  if lex = "NaN" ∨ lex = "Infinity" ∨ lex = "-Infinity" then false
  else (lex.data.takeWhile (fun c => c ≠ 'e' ∧ c ≠ 'E')).all
    (fun c => !c.isDigit || c = '0')

/-- Python truthiness of a parsed JSON value (`None`, `False`, zero, empty
string/list/dict are falsy). -/
def jsonTruthy : Json → Bool
  | .null => false
  | .bool b => b
  | .num lex => !numLexIsZero lex
  | .str s => !s.isEmpty
  | .arr xs => !xs.isEmpty
  | .obj kvs => !kvs.isEmpty

/-! ### Tool-call detection in the adapters (`app/services/llm_providers.py`) -/

/-- An `LLMResponse.content` after the adapter's detection step: still the
raw reply text, or the value `json.loads` produced from it. -/
inductive Content where
  | text (s : String) : Content
  | json (j : Json) : Content
deriving Repr

/-- Python `str.strip()` (drop leading and trailing whitespace; the source
strings are ASCII, for which Lean's `Char.isWhitespace` and Python's
definition agree). -/
def pyStrip (s : String) : String :=
  String.mk
    (((s.data.dropWhile Char.isWhitespace).reverse.dropWhile
        Char.isWhitespace).reverse)

/-- Does the first list occur at the head of the second? -/
def isPrefixL : List Char → List Char → Bool
  | [], _ => true
  | _ :: _, [] => false
  | a :: as, b :: bs => a = b && isPrefixL as bs

/-- Python's substring test `needle in hay`. -/
def hasSubstr (needle : List Char) : List Char → Bool
  | [] => isPrefixL needle []
  | c :: rest => isPrefixL needle (c :: rest) || hasSubstr needle rest

/-- Does the string start with an opening brace? -/
def startsWithBrace (s : String) : Bool :=
  s.data.head? = some '\x7b'

/-- The tool-call detection the OpenAI (lines 46-51), Anthropic (129-134)
and Groq (325-330) adapters all perform on the vendor's reply text:

  `if isinstance(content, str) and content.strip().startswith('\x7b') and
  'tool_call' in content: try: content = json.loads(content) except: pass`

On a successful parse the content becomes the parsed value; on a failed
parse, or when the guard is false, the text is kept unchanged.  The
Google adapter (lines 216-231) performs no such step and always returns
the extracted text. -/
def detectToolCall (content : String) : Content :=
  if startsWithBrace (pyStrip content) && hasSubstr "tool_call".data content.data
  then
    match parseJson content with
    | some j => .json j
    | none => .text content
  else .text content

/-- `GoogleProvider.generate_response` content normalization (llm_providers.py
lines 216-231): the extracted text is returned as-is, with no tool-call
detection. -/
def googleContent (text : String) : Content :=
  .text text

/-! ### The `stream_chat` tool-call loop (`app/api/chat.py` lines 264-293)

The loop's interaction with the vendor is modelled by a `provider`
function from the current message list to the response content (the
temperature/max-token arguments and the usage metadata play no role in
the loop's control flow).  The loop body is `while True:` with no
iteration counter; to observe it after finitely many steps the embedding
takes a fuel argument, and fuel exhaustion is reported as the dedicated
outcome `running` — reaching `running` means the source loop is still
iterating at that depth. -/

/-- Python `==` between a parsed-JSON value and a string (`t["name"] ==
tool_name`, chat.py line 283): true exactly for the equal string. -/
def jsonEqStr (j : Json) (s : String) : Bool :=
  match j with
  | .str s' => s' = s
  | _ => false

/-- The tool-call test of chat.py line 277:
`isinstance(response.content, dict) and response.content.get("tool_call")`
(truthiness of the value).  Returns the `tool_call` value when the test
passes. -/
def toolCallOf : Content → Option Json
  | .text _ => none
  | .json j =>
    match objGet j "tool_call" with
    | some v => if jsonTruthy v then some v else none
    | none => none

/-- The tool resolution of chat.py line 283:
`next((s for s in enabled_servers.values() if any(t["name"] == tool_name
for t in s.tools)), None)` — the first enabled server whose FULL tool list
(disabled tools included) contains the requested name. -/
def resolve_tool_server (r : Registry) (tool_name : Json) : Option MCPServer :=
  (get_enabled_servers r).find?
    (fun s => s.tools.any (fun t => jsonEqStr tool_name t.name))

/-- `tool_call.get("arguments", \x7b\x7d)` (chat.py line 282). -/
def argsOf (tc : Json) : Json :=
  (objGet tc "arguments").getD (.obj [])

/-- The `tool`-role message appended at chat.py line 289.  The source
serializes `json.dumps({"tool_name": tool_name, "result": {"result":
f"Simulated result for {tool_name} with args {tool_args}"}})`; no checked
claim depends on this text (the loop's control flow never reads it back),
so the serialization here is schematic. -/
def simulatedToolMessage (tool_name : Json) (tool_args : Json) : LLMMessage :=
  { role := "tool"
    content := "tool result for " ++
      (match tool_name, tool_args with | .str s, _ => s | _, _ => "") }

/-- Outcome of running the `stream_chat` loop for a bounded number of
iterations.  `final` is the `break` at line 293 (terminal answer),
`toolServerNotFound` the `HTTPException(500)` at line 285, `badToolCall`
the `KeyError` escaping from `tool_call["name"]` at line 281 (caught at
line 303 and turned into an HTTP 500), and `running` means the loop is
still iterating when the observation fuel runs out. -/
inductive LoopOutcome where
  | final (resp : Content) (chain : List Json) : LoopOutcome
  | toolServerNotFound (chain : List Json) : LoopOutcome
  | badToolCall (chain : List Json) : LoopOutcome
  | running (msgs : List LLMMessage) (chain : List Json) : LoopOutcome
deriving Repr

/-- Is the loop still iterating? -/
def LoopOutcome.isRunning : LoopOutcome → Bool
  | .running _ _ => true
  | _ => false

/-- The `while True:` loop of `stream_chat` (chat.py lines 269-293),
observed for `fuel` iterations.  `enabled_servers` is computed once before
the loop (line 244) from the registry, so the registry argument is fixed.
Note the source has NO iteration cap: the only exits are a non-tool-call
response, a failed resolution, or the `KeyError` on a malformed
`tool_call` value. -/
def stream_chat_loop (provider : List LLMMessage → Content) (r : Registry) :
    Nat → List LLMMessage → List Json → LoopOutcome
  | 0, msgs, chain => .running msgs chain
  | fuel + 1, msgs, chain =>
    let content := provider msgs
    match toolCallOf content with
    | none => .final content chain
    | some tc =>
      let chain' := chain ++ [tc]
      match objGet tc "name" with
      | none => .badToolCall chain'
      | some tool_name =>
        match resolve_tool_server r tool_name with
        | none => .toolServerNotFound chain'
        | some _ =>
          stream_chat_loop provider r fuel
            (msgs ++ [simulatedToolMessage tool_name (argsOf tc)]) chain'

/-- Content of the LAST `system`-role message of a list, if any (the value
`system_message` holds after the `AnthropicProvider` splitting loop, since
each `system` message overwrites it). -/
def lastSystemContent : List LLMMessage → Option String
  | [] => none
  | m :: rest =>
    match lastSystemContent rest with
    | some s => some s
    | none => if m.role = "system" then some m.content else none

/-! ## Theorems -/

/-! ### Provider registry claims -/

/-- C3: `validate_provider_config p m` is `true` exactly when `p` is a known
provider (a key of the `_provider_info` table) and `m` is a member of that
provider's declared model list.  The function is a total Lean function over
static data: it performs no I/O and cannot raise. -/
theorem validate_model_iff (p m : String) :
    validate_provider_config p m = true ↔
      ∃ info, lookupInfo p = some info ∧ m ∈ info.models := by
  unfold validate_provider_config
  cases h : lookupInfo p with
  | none => simp
  | some info => simp [List.elem_iff]

/-- Helper: the adapter-class table and the provider-info table of
`LLMFactory` are declared with the same four keys, so membership in
`_providers` coincides with success of the `_provider_info` lookup. -/
theorem providerClasses_eq_info_keys (pt : String) :
    providerClasses.contains pt = (lookupInfo pt).isSome := by
  by_cases h1 : pt = "openai"
  · subst h1; decide
  by_cases h2 : pt = "anthropic"
  · subst h2; decide
  by_cases h3 : pt = "google"
  · subst h3; decide
  by_cases h4 : pt = "groq"
  · subst h4; decide
  simp [providerClasses, lookupInfo, provider_info, List.find?,
    List.contains, h1, h2, h3, h4, Ne.symm h1, Ne.symm h2, Ne.symm h3,
    Ne.symm h4]

/-- C4: `create_provider` fails with the `Unsupported provider` error when
the provider identifier is unknown — before any adapter is constructed and
hence before any network activity (the embedding is pure; in the source the
`raise` precedes the vendor-SDK client construction) — and when the model
identifier is empty (Python `None` or `""`, both falsy) it builds the
adapter bound to the provider's declared default model. -/
theorem create_provider_spec (pt key model : String) :
    (lookupInfo pt = none →
      create_provider pt key model = .error ("Unsupported provider: " ++ pt)) ∧
    (∀ info, lookupInfo pt = some info →
      create_provider pt key "" =
        .ok { provider_type := pt, api_key := key,
              model := info.default_model }) ∧
    (∀ info, lookupInfo pt = some info → model ≠ "" →
      create_provider pt key model =
        .ok { provider_type := pt, api_key := key, model := model }) := by
  refine ⟨fun h => ?_, fun info h => ?_, fun info h hm => ?_⟩
  · have hc : pt ∉ providerClasses := by
      intro hmem
      have hb : (lookupInfo pt).isSome = true := by
        rw [← providerClasses_eq_info_keys]
        exact List.elem_iff.mpr hmem
      rw [h] at hb
      simp at hb
    simp [create_provider, hc]
  · have hc : pt ∈ providerClasses := by
      have := providerClasses_eq_info_keys pt
      rw [h] at this
      exact List.elem_iff.mp this
    simp [create_provider, hc, h]
  · have hc : pt ∈ providerClasses := by
      have := providerClasses_eq_info_keys pt
      rw [h] at this
      exact List.elem_iff.mp this
    simp [create_provider, hc, h, hm]

/-- Witness for C4 at concrete inputs: an unknown provider is rejected, and
the Google provider with an empty model id is bound to its default model. -/
theorem create_provider_spec_witness :
    create_provider "gopher" "k" "m" =
      .error ("Unsupported provider: " ++ "gopher") ∧
    create_provider "google" "k" "" =
      .ok { provider_type := "google", api_key := "k",
            model := "gemini-2.5-pro" } := by
  constructor
  · exact (create_provider_spec "gopher" "k" "m").1 (by decide)
  · exact (create_provider_spec "google" "k" "").2.1
      { provider := "google"
        name := "Google"
        description := "Gemini models from Google"
        models := ["gemini-2.5-pro", "gemini-2.5-flash",
                   "gemini-2.5-flash-lite-preview-06-17", "gemini-2.0-flash",
                   "gemini-2.0-flash-lite", "gemini-1.5-pro",
                   "gemini-1.5-flash", "gemini-1.5-flash-8b"]
        default_model := "gemini-2.5-pro"
        requires_api_key := true }
      (by decide)

/-- C10: the model list the factory registry declares for Google and the
list the Google adapter itself advertises disagree in both directions:
`gemini-pro` is advertised by the adapter but rejected by
`validate_provider_config`, while `gemini-2.5-flash` is accepted by
`validate_provider_config` but absent from the adapter's list. -/
theorem google_model_lists_disagree :
    "gemini-pro" ∈ googleAdapterModels ∧
    validate_provider_config "google" "gemini-pro" = false ∧
    validate_provider_config "google" "gemini-2.5-flash" = true ∧
    "gemini-2.5-flash" ∉ googleAdapterModels := by
  refine ⟨?_, ?_, ?_, ?_⟩ <;> decide

/-! ### Tool-server registry claims -/

/-- The "filesystem" server of `MCPService.create_default_config`
(mcp_integration.py lines 100-108), used as concrete witness data. -/
def fsServer : MCPServer :=
  { name := "filesystem"
    command := ["npx"]
    args := ["-y", "@modelcontextprotocol/server-filesystem",
             "/path/to/allowed/files"]
    env := []
    disabled := false
    description := "File system access server"
    tools := [{ name := "read_file", description := "Read a file",
                disabled := false },
              { name := "write_file", description := "Write to a file",
                disabled := false }] }

/-- A one-server registry holding `fsServer`. -/
def demoRegistry : Registry := [("filesystem", fsServer)]

/-- Rebuilding a server from its own `to_dict` output under its own name
gives the server back: `to_dict` writes every constructor field and
`__init__` reads them all back. -/
theorem ofConfig_to_dict (s : MCPServer) :
    MCPServer.ofConfig s.name s.to_dict = s := by
  cases s; rfl

/-- C5: structural round-trip of the tool-server configuration: writing the
registry out (`save_config`, one `to_dict` per server keyed by name) and
reading it back (`load_config`, one `MCPServer(name, config)` per entry)
reproduces the registry exactly — command, args, env, disabled,
description and tools are all preserved — provided each stored server
carries the name it is keyed under (which every registry built through
`MCPService` does, since servers are always constructed from their key). -/
theorem mcp_config_roundtrip (r : Registry)
    (h : ∀ p ∈ r, (p.2).name = p.1) :
    load_config (save_config r) = r := by
  induction r with
  | nil => rfl
  | cons p tl ih =>
    have hp : p.2.name = p.1 := h p (by simp)
    have htl : ∀ q ∈ tl, (q.2).name = q.1 :=
      fun q hq => h q (List.mem_cons_of_mem _ hq)
    simp only [save_config, load_config, List.map_cons]
    congr 1
    · have hod := ofConfig_to_dict p.2
      rw [hp] at hod
      rw [hod]
    · simpa [save_config, load_config] using ih htl

/-- Witness for C5: the round-trip at the concrete demo registry. -/
theorem mcp_config_roundtrip_witness :
    load_config (save_config demoRegistry) = demoRegistry :=
  mcp_config_roundtrip demoRegistry
    (by intro p hp
        simp only [demoRegistry, List.mem_singleton] at hp
        subst hp; rfl)

/-- Keys are untouched by `setServerDisabled`, so server-existence tests
give the same answer before and after. -/
theorem setServerDisabled_hasServer (r : Registry) (n m : String) (b : Bool) :
    hasServer (setServerDisabled r n b) m = hasServer r m := by
  induction r with
  | nil => rfl
  | cons p tl ih =>
    have hkey :
        (if p.1 = n then (p.1, { p.2 with disabled := b }) else p).1 = p.1 := by
      split <;> rfl
    simp only [setServerDisabled, hasServer, List.map_cons, List.any_cons]
      at ih ⊢
    rw [hkey, ih]

/-- Setting the same disabled flag twice is the same as setting it once. -/
theorem setServerDisabled_idem (r : Registry) (n : String) (b : Bool) :
    setServerDisabled (setServerDisabled r n b) n b =
      setServerDisabled r n b := by
  induction r with
  | nil => rfl
  | cons p tl ih =>
    by_cases hp : p.1 = n <;> simp [setServerDisabled, hp] <;>
      simpa [setServerDisabled] using ih

/-- Setting the same flag on the first matching tool twice is the same as
setting it once (the rewritten tool keeps its name, so the second pass
stops at the same place). -/
theorem setFirstTool_idem (ts : List MCPTool) (n : String) (b : Bool) :
    setFirstTool (setFirstTool ts n b) n b = setFirstTool ts n b := by
  induction ts with
  | nil => rfl
  | cons t ts ih =>
    by_cases ht : t.name = n <;> simp [setFirstTool, ht, ih]

/-- `enable_server` is idempotent on the registry state. -/
theorem enable_server_idem (r : Registry) (n : String) :
    enable_server (enable_server r n) n = enable_server r n := by
  cases h : hasServer r n with
  | false => simp [enable_server, h]
  | true =>
      simp [enable_server, h, setServerDisabled_hasServer,
        setServerDisabled_idem]

/-- `disable_server` is idempotent on the registry state. -/
theorem disable_server_idem (r : Registry) (n : String) :
    disable_server (disable_server r n) n = disable_server r n := by
  cases h : hasServer r n with
  | false => simp [disable_server, h]
  | true =>
      simp [disable_server, h, setServerDisabled_hasServer,
        setServerDisabled_idem]

/-- `enable_tool` is idempotent on the registry state. -/
theorem enable_tool_idem (r : Registry) (sn tn : String) :
    enable_tool (enable_tool r sn tn) sn tn = enable_tool r sn tn := by
  induction r with
  | nil => rfl
  | cons p tl ih =>
    simp only [enable_tool, List.map_cons] at *
    by_cases hp : p.1 = sn <;> simp [hp, setFirstTool_idem, ih]

/-- `disable_tool` is idempotent on the registry state. -/
theorem disable_tool_idem (r : Registry) (sn tn : String) :
    disable_tool (disable_tool r sn tn) sn tn = disable_tool r sn tn := by
  induction r with
  | nil => rfl
  | cons p tl ih =>
    simp only [disable_tool, List.map_cons] at *
    by_cases hp : p.1 = sn <;> simp [hp, setFirstTool_idem, ih]

/-- Does `server_name` exist and expose a tool named `tool_name`? (The
situation in which `enable_tool`/`disable_tool` report success.) -/
def toolExists (r : Registry) (server_name tool_name : String) : Bool :=
  r.any (fun p =>
    p.1 = server_name && p.2.tools.any (fun t => t.name = tool_name))

/-- C6: for every registry state, every existing server name and every
existing (server, tool) pair, applying `enable_server`, `disable_server`,
`enable_tool` or `disable_tool` twice in succession yields exactly the
registry state of applying it once.  (The proofs do not even need the
existence hypotheses: on missing names the operations are no-ops, which
are also idempotent.) -/
theorem mcp_ops_idempotent (r : Registry) (n sn tn : String)
    (_hn : hasServer r n = true) (_htn : toolExists r sn tn = true) :
    enable_server (enable_server r n) n = enable_server r n ∧
    disable_server (disable_server r n) n = disable_server r n ∧
    enable_tool (enable_tool r sn tn) sn tn = enable_tool r sn tn ∧
    disable_tool (disable_tool r sn tn) sn tn = disable_tool r sn tn :=
  ⟨enable_server_idem r n, disable_server_idem r n,
   enable_tool_idem r sn tn, disable_tool_idem r sn tn⟩

/-- Witness for C6 on the demo registry, server "filesystem" and its tool
"read_file". -/
theorem mcp_ops_idempotent_witness :
    enable_server (enable_server demoRegistry "filesystem") "filesystem" =
      enable_server demoRegistry "filesystem" ∧
    disable_server (disable_server demoRegistry "filesystem") "filesystem" =
      disable_server demoRegistry "filesystem" ∧
    enable_tool (enable_tool demoRegistry "filesystem" "read_file")
        "filesystem" "read_file" =
      enable_tool demoRegistry "filesystem" "read_file" ∧
    disable_tool (disable_tool demoRegistry "filesystem" "read_file")
        "filesystem" "read_file" =
      disable_tool demoRegistry "filesystem" "read_file" :=
  mcp_ops_idempotent demoRegistry "filesystem" "filesystem" "read_file"
    (by decide) (by decide)

/-- C9: `refresh_tools` leaves the stored tool list (and every other server
field) intact whenever the fetch fails (`fetch_tools_for_server` raises:
process fails to start, handshake fails, unknown server) or returns an
empty (falsy) listing; only a successful non-empty fetch replaces the tool
list, and it changes nothing else.  The registry stays usable: the
operation is total on the server value. -/
theorem refresh_tools_spec (s : MCPServer)
    (fetched : Except String (List MCPTool)) :
    (∀ e, fetched = .error e → refresh_tools fetched s = s) ∧
    (fetched = .ok [] → refresh_tools fetched s = s) ∧
    (∀ ts, fetched = .ok ts → ts ≠ [] →
      refresh_tools fetched s = { s with tools := ts }) := by
  refine ⟨fun e he => ?_, fun h0 => ?_, fun ts hts hne => ?_⟩
  · rw [he]; rfl
  · rw [h0]; rfl
  · rw [hts]
    cases ts with
    | nil => exact absurd rfl hne
    | cons t ts' => rfl

/-- Witness for C9: a failed fetch and an empty fetch keep `fsServer`
unchanged; a successful fetch replaces its tool list. -/
theorem refresh_tools_spec_witness :
    refresh_tools (.error "spawn failed") fsServer = fsServer ∧
    refresh_tools (.ok []) fsServer = fsServer ∧
    refresh_tools
        (.ok [{ name := "list_dir", description := "", disabled := false }])
        fsServer =
      { fsServer with
        tools := [{ name := "list_dir", description := "",
                    disabled := false }] } :=
  ⟨(refresh_tools_spec fsServer _).1 "spawn failed" rfl,
   (refresh_tools_spec fsServer _).2.1 rfl,
   (refresh_tools_spec fsServer _).2.2 _ rfl (by simp)⟩

/-! ### Anthropic adapter claims -/

/-- Generalized accumulator form of the Anthropic splitting loop: starting
from any accumulated system value and forwarded list, the loop ends with
the last system content (falling back to the accumulator) and the
non-system messages appended in order. -/
theorem anthropic_prepare_go (msgs : List LLMMessage) (sys0 : Option String)
    (acc : List LLMMessage) :
    List.foldl
      (fun acc msg =>
        if msg.role = "system" then (some msg.content, acc.2)
        else (acc.1, acc.2 ++ [msg]))
      (sys0, acc) msgs =
      ((match lastSystemContent msgs with
        | some s => some s
        | none => sys0),
       acc ++ msgs.filter (fun m => !(m.role == "system"))) := by
  induction msgs generalizing sys0 acc with
  | nil => simp [lastSystemContent]
  | cons m rest ih =>
    by_cases hm : m.role = "system"
    · simp only [List.foldl_cons, if_pos hm, ih, lastSystemContent,
        List.filter_cons]
      have : (m.role == "system") = true := by simp [hm]
      simp only [this, Bool.not_true, if_neg]
      cases hrest : lastSystemContent rest <;> simp
    · simp only [List.foldl_cons, if_neg hm, ih, lastSystemContent,
        List.filter_cons]
      have : (m.role == "system") = false := by simp [hm]
      simp only [this, Bool.not_false, if_pos]
      cases hrest : lastSystemContent rest <;> simp [hm]

/-- C7 (amended): the Anthropic adapter removes EVERY `system`-role message
from the forwarded message list, keeping the other messages in order, and
the vendor's dedicated `system` channel carries the content of the LAST
`system`-role message (so of the first one exactly when at most one occurs
— the only case `stream_chat` ever builds). -/
theorem anthropic_prepare_spec (msgs : List LLMMessage) :
    (anthropic_prepare msgs).1 = lastSystemContent msgs ∧
    (anthropic_prepare msgs).2 =
      msgs.filter (fun m => !(m.role == "system")) ∧
    (anthropic_prepare msgs).2.all (fun m => !(m.role == "system")) = true := by
  have h := anthropic_prepare_go msgs none []
  unfold anthropic_prepare
  rw [h]
  refine ⟨?_, rfl, ?_⟩
  · cases hs : lastSystemContent msgs <;> simp
  · simp only [List.nil_append, List.all_eq_true]
    intro m hm
    simpa using (List.mem_filter.mp hm).2

/-- Counterexample to C7 as stated: with two `system` messages the dedicated
channel carries the SECOND one's content ("b"), not the first ("a"). -/
theorem anthropic_prepare_counterexample :
    anthropic_prepare
        [{ role := "system", content := "a" },
         { role := "system", content := "b" },
         { role := "user", content := "u" }] =
      (some "b", [{ role := "user", content := "u" }]) ∧
    some "b" ≠ some "a" := by
  refine ⟨rfl, by decide⟩

/-! ### Tool resolution claims (`stream_chat`, chat.py line 283) -/

/-- A successful `find?` returns the FIRST satisfying element: the predicate
holds of the result and fails on everything before it. -/
theorem find?_first {α : Type} (p : α → Bool) (l : List α) (a : α)
    (h : l.find? p = some a) :
    p a = true ∧
    ∃ pre suf, l = pre ++ a :: suf ∧ ∀ x ∈ pre, p x = false := by
  induction l with
  | nil => exact absurd h (by simp)
  | cons x xs ih =>
    cases hx : p x with
    | true =>
      simp only [List.find?, hx] at h
      cases h
      exact ⟨hx, [], xs, rfl, by simp⟩
    | false =>
      simp only [List.find?, hx] at h
      obtain ⟨hpa, pre, suf, heq, hpre⟩ := ih h
      subst heq
      refine ⟨hpa, x :: pre, suf, rfl, ?_⟩
      intro y hy
      rcases List.mem_cons.mp hy with rfl | hy'
      · exact hx
      · exact hpre y hy'

/-- Members of `get_enabled_servers` are servers with `disabled = False`. -/
theorem enabled_server_disabled_false {r : Registry} {s : MCPServer}
    (h : s ∈ get_enabled_servers r) : s.disabled = false := by
  simp only [get_enabled_servers, List.mem_map] at h
  obtain ⟨p, hp, rfl⟩ := h
  have := (List.mem_filter.mp hp).2
  simpa using this

/-- The generator's membership test with a string tool name is a plain
string comparison on the tools' names. -/
theorem any_jsonEqStr (ts : List MCPTool) (tn : String) :
    ts.any (fun t => jsonEqStr (.str tn) t.name) =
      ts.any (fun t => t.name = tn) := by
  induction ts with
  | nil => rfl
  | cons t ts ih =>
    simp only [List.any_cons, jsonEqStr, ih]
    congr 1
    exact decide_eq_decide.mpr eq_comm

/-- C2 (amended): the tool resolution `stream_chat` actually performs scans
the enabled servers in registry order and returns the FIRST whose full
tool list — disabled tools included — contains the requested name; the
not-found error (HTTP 500) occurs exactly when no enabled server's tool
list contains the name.  Ambiguity between several enabled servers is not
detected (the first match wins silently), and a disabled tool on an
enabled server still matches. -/
theorem resolve_tool_server_spec (r : Registry) (tn : String) :
    (resolve_tool_server r (.str tn) = none ↔
      ∀ s ∈ get_enabled_servers r,
        s.tools.any (fun t => t.name = tn) = false) ∧
    (∀ s, resolve_tool_server r (.str tn) = some s →
      s.disabled = false ∧
      s.tools.any (fun t => t.name = tn) = true ∧
      ∃ pre suf, get_enabled_servers r = pre ++ s :: suf ∧
        ∀ s' ∈ pre, s'.tools.any (fun t => t.name = tn) = false) := by
  constructor
  · simp only [resolve_tool_server, List.find?_eq_none, Bool.not_eq_true,
      any_jsonEqStr]
  · intro s hs
    simp only [resolve_tool_server] at hs
    obtain ⟨hpa, pre, suf, heq, hpre⟩ :=
      find?_first (fun s => s.tools.any (fun t => jsonEqStr (.str tn) t.name))
        (get_enabled_servers r) s hs
    refine ⟨enabled_server_disabled_false (by rw [heq]; simp), ?_, pre, suf,
      heq, ?_⟩
    · rw [← any_jsonEqStr]; exact hpa
    · intro s' hs'
      rw [← any_jsonEqStr]
      exact hpre s' hs'

/-- Witness for C2's amended statement: resolving "read_file" on the demo
registry returns the filesystem server, which is enabled, carries the
tool, and is first among the enabled servers. -/
theorem resolve_tool_server_spec_witness :
    fsServer.disabled = false ∧
    fsServer.tools.any (fun t => t.name = "read_file") = true ∧
    ∃ pre suf, get_enabled_servers demoRegistry = pre ++ fsServer :: suf ∧
      ∀ s' ∈ pre, s'.tools.any (fun t => t.name = "read_file") = false :=
  (resolve_tool_server_spec demoRegistry "read_file").2 fsServer rfl

/-- Two enabled servers both exposing the enabled tool "search". -/
def srvA : MCPServer :=
  { name := "alpha", command := ["cmd"], args := [], env := [],
    disabled := false, description := "",
    tools := [{ name := "search", description := "", disabled := false }] }

/-- Same tool name as `srvA`, also enabled. -/
def srvB : MCPServer :=
  { name := "beta", command := ["cmd"], args := [], env := [],
    disabled := false, description := "",
    tools := [{ name := "search", description := "", disabled := false }] }

/-- An enabled server whose only tool "lookup" is itself DISABLED. -/
def srvC : MCPServer :=
  { name := "gamma", command := ["cmd"], args := [], env := [],
    disabled := false, description := "",
    tools := [{ name := "lookup", description := "", disabled := true }] }

/-- Counterexample to C2 as stated.  First conjunct: two enabled servers
both expose the enabled tool "search", so the claim demands an
`AmbiguousTool` failure — but resolution silently returns the first
server.  Second conjunct: no enabled server exposes "lookup" among its
ENABLED tools (srvC's copy is disabled), so the claim demands a
`NotFound` failure and forbids matching a disabled tool — but resolution
returns srvC. -/
theorem resolve_tool_counterexample :
    resolve_tool_server [("alpha", srvA), ("beta", srvB)] (.str "search") =
      some srvA ∧
    resolve_tool_server [("gamma", srvC)] (.str "lookup") = some srvC :=
  ⟨rfl, rfl⟩

/-! ### Tool-call detection claims -/

/-- C8 (amended): in the OpenAI, Anthropic and Groq adapters the reply text
is replaced by the `json.loads` value exactly when the stripped text
starts with an opening brace, the marker string `tool_call` occurs as a
SUBSTRING anywhere in the text (not necessarily as a key of the object),
and the parse succeeds; in every other case — guard false or parse failure
— the text is carried unchanged as a terminal answer.  (The Google adapter
performs no detection and always carries the text unchanged, which
satisfies the claim vacuously.) -/
theorem detect_tool_call_spec (content : String) :
    ((startsWithBrace (pyStrip content) = false ∨
        hasSubstr "tool_call".data content.data = false ∨
        parseJson content = none) →
      detectToolCall content = .text content) ∧
    (∀ j, startsWithBrace (pyStrip content) = true →
      hasSubstr "tool_call".data content.data = true →
      parseJson content = some j →
      detectToolCall content = .json j) := by
  constructor
  · intro h
    unfold detectToolCall
    rcases h with h | h | h
    · simp [h]
    · simp [h]
    · simp [h]
  · intro j h1 h2 h3
    unfold detectToolCall
    simp [h1, h2, h3]

/-- Witness for C8's amended statement at concrete inputs: a parse failure
keeps the text, and a successful parse of marker-containing text replaces
it. -/
theorem detect_tool_call_spec_witness :
    detectToolCall "\x7b tool_call oops" = .text "\x7b tool_call oops" ∧
    detectToolCall "\x7b\"tool_call\": \x7b\"name\": \"search\"\x7d\x7d" =
      .json (.obj [("tool_call", .obj [("name", .str "search")])]) :=
  ⟨(detect_tool_call_spec "\x7b tool_call oops").1 (Or.inr (Or.inr rfl)),
   (detect_tool_call_spec "\x7b\"tool_call\": \x7b\"name\": \"search\"\x7d\x7d").2
     (.obj [("tool_call", .obj [("name", .str "search")])]) rfl rfl rfl⟩

/-- Counterexample to C8 as stated: the reply
`{"a": "b tool_call c"}` is a JSON object that does NOT contain the
tool-call marker as a key (second conjunct) — yet the adapters do not
carry the text unchanged: the content is replaced by the parsed object
(first conjunct), because the source only checks `tool_call` as a
substring of the text. -/
theorem detect_tool_call_counterexample :
    detectToolCall "\x7b\"a\": \"b tool_call c\"\x7d" =
      .json (.obj [("a", .str "b tool_call c")]) ∧
    objGet (.obj [("a", .str "b tool_call c")]) "tool_call" = none :=
  ⟨rfl, rfl⟩

/-! ### Orchestration-loop claims (`stream_chat`, chat.py lines 269-293) -/

/-- A well-formed tool-call request for the enabled tool `read_file` of the
demo registry. -/
def alwaysToolCall : Json :=
  .obj [("name", .str "read_file"), ("arguments", .obj [])]

/-- A provider adapter that answers EVERY message list with the same
tool-call request — the adversarial vendor of the claim. -/
def alwaysToolProvider : List LLMMessage → Content :=
  fun _ => .json (.obj [("tool_call", alwaysToolCall)])

/-- C1 (amended): the `stream_chat` loop has NO iteration cap.  With a
provider that always returns a resolvable tool-call request, the loop is
still running after every number of iterations: it never reaches a
terminal outcome, and in particular never reports anything like
`LoopLimitExceeded` (no such outcome exists anywhere in the source). -/
theorem stream_chat_loop_no_cap (fuel : Nat) (msgs : List LLMMessage)
    (chain : List Json) :
    (stream_chat_loop alwaysToolProvider demoRegistry fuel msgs
        chain).isRunning = true := by
  induction fuel generalizing msgs chain with
  | zero => rfl
  | succ f ih =>
    rw [show stream_chat_loop alwaysToolProvider demoRegistry (f + 1) msgs
          chain =
        stream_chat_loop alwaysToolProvider demoRegistry f
          (msgs ++ [simulatedToolMessage (.str "read_file") (.obj [])])
          (chain ++ [alwaysToolCall]) from rfl]
    exact ih _ _

/-- Counterexample to C1 as stated: starting from the empty conversation,
after 30 iterations — far beyond any "small fixed maximum" — the loop is
still iterating, so it does not terminate within a configured iteration
cap and never reports a `LoopLimitExceeded` outcome. -/
theorem stream_chat_loop_counterexample :
    (stream_chat_loop alwaysToolProvider demoRegistry 30 [] []).isRunning
      = true := by rfl

end ChatBot
